import Mathlib

/-! RTEMP: the compile-time configuration of `main/config.h`.

The header is a list of fourteen `#define` lines.  Each one is embedded as a
constant of the same name: a C string literal becomes a `String`, a C integer
literal (type `int`) becomes an `Int`.  `config_h` lists the definitions in file
order, so that statements about "every constant of the header" can be made.
-/

/-! ## The constants, line by line -/

/-- Line 2: `#define FIRMWARE_VERSION "v2"`. -/
def FIRMWARE_VERSION : String := "v2"

/-- Line 5: `#define WIFI_SSID ""`. -/
def WIFI_SSID : String := ""

/-- Line 6: `#define WIFI_PASSWORD ""`. -/
def WIFI_PASSWORD : String := ""

/-- Line 9: `#define MQTT_SERVER_ADDRESS ""`. -/
def MQTT_SERVER_ADDRESS : String := ""

/-- Line 10: `#define MQTT_SERVER_PORT 1883`. -/
def MQTT_SERVER_PORT : Int := 1883

/-- Line 13: `#define MQTT_CLIENT_ID ""`. -/
def MQTT_CLIENT_ID : String := ""

/-- Line 14: `#define MQTT_USERNAME ""`. -/
def MQTT_USERNAME : String := ""

/-- Line 15: `#define MQTT_PASSWORD ""`. -/
def MQTT_PASSWORD : String := ""

/-- Line 18: `#define OTA_PASSWORD ""`. -/
def OTA_PASSWORD : String := ""

/-- Line 21: `#define ONEWIRE_PIN 2`. -/
def ONEWIRE_PIN : Int := 2

/-- Line 24: `#define NTP_SERVER ""`. -/
def NTP_SERVER : String := ""

/-- Line 27: `#define MSG_BUFFER_SIZE 100`. -/
def MSG_BUFFER_SIZE : Int := 100

/-- Line 30: `#define MQTT_TELEMETRY_TOPIC "v1/devices/me/telemetry"`. -/
def MQTT_TELEMETRY_TOPIC : String := "v1/devices/me/telemetry"

/-- Line 31: `#define MQTT_ATTRIBUTE_TOPIC "v1/devices/me/attributes"`. -/
def MQTT_ATTRIBUTE_TOPIC : String := "v1/devices/me/attributes"

/-! ## The header as a list of definitions -/

/-- The replacement text of a `#define`: a string literal or an integer literal. -/
inductive Value where
  | str (s : String)
  | num (n : Int)
  deriving DecidableEq, Repr

/-- One `#define NAME value` line. -/
structure Define where
  name : String
  value : Value
  deriving DecidableEq, Repr

/-- Every `#define` of `main/config.h`, in file order. -/
def config_h : List Define :=
  [ ⟨"FIRMWARE_VERSION", .str FIRMWARE_VERSION⟩,
    ⟨"WIFI_SSID", .str WIFI_SSID⟩,
    ⟨"WIFI_PASSWORD", .str WIFI_PASSWORD⟩,
    ⟨"MQTT_SERVER_ADDRESS", .str MQTT_SERVER_ADDRESS⟩,
    ⟨"MQTT_SERVER_PORT", .num MQTT_SERVER_PORT⟩,
    ⟨"MQTT_CLIENT_ID", .str MQTT_CLIENT_ID⟩,
    ⟨"MQTT_USERNAME", .str MQTT_USERNAME⟩,
    ⟨"MQTT_PASSWORD", .str MQTT_PASSWORD⟩,
    ⟨"OTA_PASSWORD", .str OTA_PASSWORD⟩,
    ⟨"ONEWIRE_PIN", .num ONEWIRE_PIN⟩,
    ⟨"NTP_SERVER", .str NTP_SERVER⟩,
    ⟨"MSG_BUFFER_SIZE", .num MSG_BUFFER_SIZE⟩,
    ⟨"MQTT_TELEMETRY_TOPIC", .str MQTT_TELEMETRY_TOPIC⟩,
    ⟨"MQTT_ATTRIBUTE_TOPIC", .str MQTT_ATTRIBUTE_TOPIC⟩ ]

/-- A value is "empty or zero" when it is the string `""` or the number `0`. -/
def Value.isEmptyOrZero : Value → Bool
  | .str s => decide (s = "")
  | .num n => decide (n = 0)

/-- The name of a definition whose value is a non-empty string, if it is one. -/
def Define.nonEmptyStringName (d : Define) : Option String :=
  match d.value with
  | .str s => if s = "" then none else some d.name
  | .num _ => none

/-! ## Topic strings -/

/-- Cut a character sequence at every `/`.  The result always has one more
element than the input has slashes, so a leading, trailing or doubled `/`
shows up as an empty level. -/
def splitLevels : List Char → List (List Char)
  | [] => [[]]
  | c :: cs =>
    if c = '/' then [] :: splitLevels cs
    else
      match splitLevels cs with
      | [] => [[c]]
      | l :: ls => (c :: l) :: ls

/-- The topic levels of a topic string: its pieces between the `/` separators. -/
def topicLevels (s : String) : List String :=
  (splitLevels s.data).map String.mk

/-- Topic validity for publishing: non-empty, no wildcard character (`+`, `#`),
no NUL character, at most 65535 bytes in UTF-8, and no empty topic level. -/
def validTopic (s : String) : Bool :=
  decide (s ≠ "")
    && !s.data.contains '+'
    && !s.data.contains '#'
    && !s.data.contains (Char.ofNat 0)
    && decide (s.utf8ByteSize ≤ 65535)
    && (topicLevels s).all (fun l => decide (l ≠ ""))

/-! ## The configuration record and its validation -/

/-- Modelled from the spec: the entity DeviceConfiguration of section 3.  The
source has no record type, only the constants above; the fields and their order
are those of the table in the spec. -/
structure DeviceConfiguration where
  firmwareVersion : String
  wifiSsid : String
  wifiPassword : String
  brokerAddress : String
  brokerPort : Int
  clientId : String
  brokerUsername : String
  brokerPassword : String
  otaPassword : String
  sensorPin : Int
  ntpServer : String
  messageBufferSize : Int
  telemetryTopic : String
  attributeTopic : String
  deriving DecidableEq, Repr

/-- Modelled from the spec: the error kinds of `ConfigError` (taxonomy of
section 7; section 4.1 lists the same kinds without `InvalidBufferSize`). -/
inductive ConfigError where
  | MissingRequiredField
  | InvalidPort
  | InvalidBufferSize
  | InvalidTopic
  deriving DecidableEq, Repr

/-- The configuration the source compiles in: each field of the record takes the
constant of `config.h` that the spec's table pairs it with. -/
def compiledDefaults : DeviceConfiguration :=
  { firmwareVersion := FIRMWARE_VERSION
    wifiSsid := WIFI_SSID
    wifiPassword := WIFI_PASSWORD
    brokerAddress := MQTT_SERVER_ADDRESS
    brokerPort := MQTT_SERVER_PORT
    clientId := MQTT_CLIENT_ID
    brokerUsername := MQTT_USERNAME
    brokerPassword := MQTT_PASSWORD
    otaPassword := OTA_PASSWORD
    sensorPin := ONEWIRE_PIN
    ntpServer := NTP_SERVER
    messageBufferSize := MSG_BUFFER_SIZE
    telemetryTopic := MQTT_TELEMETRY_TOPIC
    attributeTopic := MQTT_ATTRIBUTE_TOPIC }

/-- Modelled from the spec: the operation `load()` of section 4.1, which the
source does not contain (the header has no code).  It validates the candidate
field values and either yields them unchanged or fails with one error kind.  The
checks run in the order of the spec's algorithm sentence: "reject empty required
identifiers, reject out-of-range port/buffer-size values, reject malformed topic
strings".  The only field the spec requires to be non-empty, apart from the two
topics, is `firmwareVersion`. -/
def load (raw : DeviceConfiguration) : Except ConfigError DeviceConfiguration :=
  if raw.firmwareVersion = "" then .error .MissingRequiredField
  else if raw.brokerPort < 1 ∨ 65535 < raw.brokerPort then .error .InvalidPort
  else if raw.messageBufferSize ≤ 0 then .error .InvalidBufferSize
  else if !validTopic raw.telemetryTopic || !validTopic raw.attributeTopic then
    .error .InvalidTopic
  else .ok raw

/-! ## Theorems -/

/-- C1: with no overrides the compiled-in configuration has broker port 1883,
message buffer size 100, telemetry topic "v1/devices/me/telemetry" and
attribute topic "v1/devices/me/attributes". -/
theorem compiled_defaults_values :
    MQTT_SERVER_PORT = 1883 ∧ MSG_BUFFER_SIZE = 100 ∧
    MQTT_TELEMETRY_TOPIC = "v1/devices/me/telemetry" ∧
    MQTT_ATTRIBUTE_TOPIC = "v1/devices/me/attributes" ∧
    compiledDefaults.brokerPort = 1883 ∧ compiledDefaults.messageBufferSize = 100 ∧
    compiledDefaults.telemetryTopic = "v1/devices/me/telemetry" ∧
    compiledDefaults.attributeTopic = "v1/devices/me/attributes" := by
  decide

/-- C2: the compiled-in configuration passes every validation rule of `load()`:
the firmware version is non-empty, the broker port lies in 1..65535 (so it fits
a 16-bit unsigned integer), the message buffer size is positive, the sensor pin
is non-negative, both topics are non-empty, and loading it yields the
configuration itself, not a `ConfigError`. -/
theorem compiled_defaults_pass_validation :
    FIRMWARE_VERSION ≠ "" ∧
    (1 ≤ MQTT_SERVER_PORT ∧ MQTT_SERVER_PORT ≤ 65535) ∧
    MQTT_SERVER_PORT % 2 ^ 16 = MQTT_SERVER_PORT ∧
    0 < MSG_BUFFER_SIZE ∧
    0 ≤ ONEWIRE_PIN ∧
    MQTT_TELEMETRY_TOPIC ≠ "" ∧ MQTT_ATTRIBUTE_TOPIC ≠ "" ∧
    load compiledDefaults = .ok compiledDefaults := by
  refine ⟨by decide, by decide, by decide, by decide, by decide, by decide, by decide, ?_⟩
  rfl

/-- C3: both compiled-in topics are valid for publishing: each is non-empty,
contains neither `+` nor `#`, contains no NUL character, is at most 65535 bytes
long, and has no empty topic level when split on `/`. -/
theorem compiled_topics_valid :
    (MQTT_TELEMETRY_TOPIC ≠ "" ∧
      '+' ∉ MQTT_TELEMETRY_TOPIC.data ∧ '#' ∉ MQTT_TELEMETRY_TOPIC.data ∧
      Char.ofNat 0 ∉ MQTT_TELEMETRY_TOPIC.data ∧
      MQTT_TELEMETRY_TOPIC.utf8ByteSize ≤ 65535 ∧
      "" ∉ topicLevels MQTT_TELEMETRY_TOPIC ∧
      validTopic MQTT_TELEMETRY_TOPIC = true) ∧
    (MQTT_ATTRIBUTE_TOPIC ≠ "" ∧
      '+' ∉ MQTT_ATTRIBUTE_TOPIC.data ∧ '#' ∉ MQTT_ATTRIBUTE_TOPIC.data ∧
      Char.ofNat 0 ∉ MQTT_ATTRIBUTE_TOPIC.data ∧
      MQTT_ATTRIBUTE_TOPIC.utf8ByteSize ≤ 65535 ∧
      "" ∉ topicLevels MQTT_ATTRIBUTE_TOPIC ∧
      validTopic MQTT_ATTRIBUTE_TOPIC = true) := by
  decide

/-- C5, as stated, fails: the header has fourteen constants, not thirteen, and
the constant `MQTT_SERVER_PORT` it defines is 1883, which is neither the empty
string nor zero; so not every hardcoded value is empty or zero. -/
theorem hardcoded_values_not_all_empty_or_zero :
    config_h.length = 14 ∧
    Define.mk "MQTT_SERVER_PORT" (.num 1883) ∈ config_h ∧
    (Value.num 1883).isEmptyOrZero = false ∧
    ¬ (config_h.length = 13 ∧ ∀ d ∈ config_h, d.value.isEmptyOrZero = true) := by
  decide

/-- C5, amended: of the fourteen constants of the header, eight are the empty
string (the WiFi, broker, OTA and NTP values) and none is zero; the other six are
`FIRMWARE_VERSION = "v2"`, `MQTT_SERVER_PORT = 1883`, `ONEWIRE_PIN = 2`,
`MSG_BUFFER_SIZE = 100` and the two topic strings. -/
theorem hardcoded_values_empty_or_set :
    config_h.length = 14 ∧
    (config_h.filter (fun d => d.value.isEmptyOrZero)).map Define.name =
      ["WIFI_SSID", "WIFI_PASSWORD", "MQTT_SERVER_ADDRESS", "MQTT_CLIENT_ID",
       "MQTT_USERNAME", "MQTT_PASSWORD", "OTA_PASSWORD", "NTP_SERVER"] ∧
    (∀ d ∈ config_h, d.value ≠ .num 0) ∧
    config_h.filter (fun d => !d.value.isEmptyOrZero) =
      [ ⟨"FIRMWARE_VERSION", .str "v2"⟩,
        ⟨"MQTT_SERVER_PORT", .num 1883⟩,
        ⟨"ONEWIRE_PIN", .num 2⟩,
        ⟨"MSG_BUFFER_SIZE", .num 100⟩,
        ⟨"MQTT_TELEMETRY_TOPIC", .str "v1/devices/me/telemetry"⟩,
        ⟨"MQTT_ATTRIBUTE_TOPIC", .str "v1/devices/me/attributes"⟩ ] := by
  decide

/-- C6: every credential and deployment-specific constant of the header is the
empty string (`WIFI_SSID`, `WIFI_PASSWORD`, `MQTT_SERVER_ADDRESS`,
`MQTT_CLIENT_ID`, `MQTT_USERNAME`, `MQTT_PASSWORD`, `OTA_PASSWORD`,
`NTP_SERVER`), and the only non-empty string constants of the header are
`FIRMWARE_VERSION` and the two topics. -/
theorem credentials_empty :
    WIFI_SSID = "" ∧ WIFI_PASSWORD = "" ∧ MQTT_SERVER_ADDRESS = "" ∧
    MQTT_CLIENT_ID = "" ∧ MQTT_USERNAME = "" ∧ MQTT_PASSWORD = "" ∧
    OTA_PASSWORD = "" ∧ NTP_SERVER = "" ∧
    config_h.filterMap Define.nonEmptyStringName =
      ["FIRMWARE_VERSION", "MQTT_TELEMETRY_TOPIC", "MQTT_ATTRIBUTE_TOPIC"] := by
  decide

/-- C7: the telemetry topic and the attribute topic are distinct strings; both
start with "v1/devices/me/"; they have the same number of topic levels, agree
on every level but the last, and their last levels are "telemetry" and
"attributes"; hence no topic string is both the telemetry topic and the
attribute topic. -/
theorem topics_distinct_last_level :
    MQTT_TELEMETRY_TOPIC ≠ MQTT_ATTRIBUTE_TOPIC ∧
    MQTT_TELEMETRY_TOPIC = "v1/devices/me/" ++ "telemetry" ∧
    MQTT_ATTRIBUTE_TOPIC = "v1/devices/me/" ++ "attributes" ∧
    topicLevels MQTT_TELEMETRY_TOPIC = ["v1", "devices", "me", "telemetry"] ∧
    topicLevels MQTT_ATTRIBUTE_TOPIC = ["v1", "devices", "me", "attributes"] ∧
    (topicLevels MQTT_TELEMETRY_TOPIC).dropLast = (topicLevels MQTT_ATTRIBUTE_TOPIC).dropLast ∧
    (topicLevels MQTT_TELEMETRY_TOPIC).getLast? = some "telemetry" ∧
    (topicLevels MQTT_ATTRIBUTE_TOPIC).getLast? = some "attributes" ∧
    (∀ t : String, ¬ (t = MQTT_TELEMETRY_TOPIC ∧ t = MQTT_ATTRIBUTE_TOPIC)) := by
  refine ⟨by decide, by decide, by decide, by decide, by decide, by decide, by decide,
    by decide, ?_⟩
  rintro t ⟨h1, h2⟩
  exact absurd (h1.symm.trans h2) (by decide)
